import Mathlib

/-!
Shallow embedding of the Resilient Data Acquisition & Caching Layer of the
Rawdah-Scope dashboard (CacheManager.js and the dashboard module holding
fetchWithRetry, DataFreshness, ApiService and the useEnvironmentalData
coordinator), together with theorems settling the specification claims.

Modelling conventions:
- `Date.now()` is threaded as an explicit `now : Nat` (milliseconds).
- JavaScript numbers carried in payloads are modelled as `ℚ`.
- A JavaScript `Map` is an association list from `String` whose `set`
  replaces any previous binding of the key.
- A fallible network call is an `HttpOutcome` value (rejected promise, or a
  response with its `ok` flag and parsed body); a fetcher that can `throw`
  returns `Except String`; `return null` / `undefined` is `Option.none`.
-/

/-- One JavaScript `Map` binding step: `map.set(key, v)` replaces any previous
binding of `key`, keeping keys distinct. -/
def mapSet {α : Type} (m : List (String × α)) (key : String) (v : α) :
    List (String × α) :=
  (key, v) :: m.filter (fun p => p.1 ≠ key)

/-- `map.get(key)`: the binding of `key`, or `none` for JavaScript
`undefined`. -/
def mapGet {α : Type} (m : List (String × α)) (key : String) : Option α :=
  (m.find? (fun p => p.1 = key)).map (fun p => p.2)

/-- The per-key bookkeeping record stored in `CacheManager.timestamps`:
`{ created: Date.now(), expires: Date.now() + ttlMs, ttl: ttlMs }`. -/
structure CacheStamp where
  created : Nat
  expires : Nat
  ttl : Nat
deriving DecidableEq, Repr

/-- `class CacheManager`: two key-aligned maps, `cache` for values and
`timestamps` for expiry bookkeeping. -/
structure CacheManager (α : Type) where
  cache : List (String × α)
  timestamps : List (String × CacheStamp)
deriving DecidableEq, Repr

/-- `new CacheManager()`: both maps empty. -/
def CacheManager.empty {α : Type} : CacheManager α := ⟨[], []⟩

/-- `CacheManager.set(key, data, ttlMinutes)`: stores the value and a stamp
with absolute expiry `now + ttlMinutes*60*1000`. -/
def CacheManager.set {α : Type} (cm : CacheManager α) (now : Nat)
    (key : String) (data : α) (ttlMinutes : Nat) : CacheManager α :=
  let ttlMs := ttlMinutes * 60 * 1000
  { cache := mapSet cm.cache key data
    timestamps := mapSet cm.timestamps key
      { created := now, expires := now + ttlMs, ttl := ttlMs } }

/-- The record returned on a cache hit: `{ data, age, fromCache: true }`.
`data` mirrors `this.cache.get(key)` and so is optional like any map read. -/
structure CacheHit (α : Type) where
  data : Option α
  age : Nat
  fromCache : Bool
deriving DecidableEq, Repr

/-- `CacheManager.get(key)`: the hit record when a stamp exists and
`now < expires`; otherwise `null`, identical for an expired key and for a key
that was never set. -/
def CacheManager.get {α : Type} (cm : CacheManager α) (now : Nat)
    (key : String) : Option (CacheHit α) :=
  match mapGet cm.timestamps key with
  | some timestamp =>
      if now < timestamp.expires then
        some { data := mapGet cm.cache key
               age := now - timestamp.created
               fromCache := true }
      else none
  | none => none

/-- `CacheManager.clear()`: empties both maps. -/
def CacheManager.clear {α : Type} (_cm : CacheManager α) : CacheManager α :=
  CacheManager.empty

/-- `{ key, age }` diagnostic record inside `getCacheStats`. -/
structure CacheItemInfo where
  key : String
  age : Nat
deriving DecidableEq, Repr

/-- The record returned by `CacheManager.getCacheStats()`. -/
structure CacheStats where
  totalItems : Nat
  memoryItems : Nat
  storageItems : Nat
  oldestItem : Option CacheItemInfo
  newestItem : Option CacheItemInfo
deriving DecidableEq, Repr

/-- `CacheManager.getCacheStats()`: `totalItems` and `memoryItems` are
`this.cache.size`; the `forEach` scan tracks the minimal and maximal
`created` stamps (`oldest` starts at `Infinity`, modelled as `none`;
`newest` starts at `0`). -/
def CacheManager.getCacheStats {α : Type} (cm : CacheManager α) (now : Nat) :
    CacheStats :=
  let step := fun (acc : Option Nat × Nat × Option CacheItemInfo × Option CacheItemInfo)
                  (p : String × CacheStamp) =>
    let (oldest, newest, oldestItem, newestItem) := acc
    let beatsOldest : Bool :=
      match oldest with
      | none => true
      | some o => decide (p.2.created < o)
    let (oldest, oldestItem) :=
      if beatsOldest then (some p.2.created, some ⟨p.1, now - p.2.created⟩)
      else (oldest, oldestItem)
    let (newest, newestItem) :=
      if p.2.created > newest then (p.2.created, some ⟨p.1, now - p.2.created⟩)
      else (newest, newestItem)
    (oldest, newest, oldestItem, newestItem)
  let r := cm.timestamps.foldl step (none, 0, none, none)
  { totalItems := cm.cache.length
    memoryItems := cm.cache.length
    storageItems := 0
    oldestItem := r.2.2.1
    newestItem := r.2.2.2 }

/-- The count of live (unexpired) entries in the store; `getCacheStats` does
not use it — stated here to compare against `totalItems`. -/
def CacheManager.liveCount {α : Type} (cm : CacheManager α) (now : Nat) : Nat :=
  (cm.timestamps.filter (fun p => now < p.2.expires)).length

/-- The result object of `fetchWithRetry`: `{success: true, data, attempts}`
or `{success: false, error, attempts}`. -/
inductive RetryResult (ε α : Type) where
  | success (data : α) (attempts : Nat)
  | failure (error : ε) (attempts : Nat)
deriving DecidableEq, Repr

/-- The `for (let i = 0; i < retries; i++)` loop of `fetchWithRetry`, with the
attempt outcomes given as `fetcher : Nat → Except ε α` (attempt `i` is the
`i`-th invocation).  Falling off the end of the loop returns JavaScript
`undefined`, modelled as `none`.  The final `fuel` argument is a structural
termination device, always instantiated to `retries - i` (so it never runs
out before the loop condition `i < retries` fails).  The backoff wait and
the `onRetry` hook do not affect the returned value and are not modelled. -/
def fetchWithRetryLoop {ε α : Type} (fetcher : Nat → Except ε α)
    (retries : Nat) : Nat → Nat → Option (RetryResult ε α)
  | _, 0 => none
  | i, fuel + 1 =>
      if i < retries then
        match fetcher i with
        | .ok result => some (.success result (i + 1))
        | .error e =>
            if i = retries - 1 then some (.failure e retries)
            else fetchWithRetryLoop fetcher retries (i + 1) fuel
      else none

/-- `fetchWithRetry(fetcher, {retries, ...})`. -/
def fetchWithRetry {ε α : Type} (fetcher : Nat → Except ε α)
    (retries : Nat) : Option (RetryResult ε α) :=
  fetchWithRetryLoop fetcher retries 0 retries

/-- Number of invocations of the wrapped operation performed by the loop of
`fetchWithRetry` starting from index `i`, with the same fuel device. -/
def fetchWithRetryCallsLoop {ε α : Type} (fetcher : Nat → Except ε α)
    (retries : Nat) : Nat → Nat → Nat
  | _, 0 => 0
  | i, fuel + 1 =>
      if i < retries then
        match fetcher i with
        | .ok _ => 1
        | .error _ =>
            if i = retries - 1 then 1
            else 1 + fetchWithRetryCallsLoop fetcher retries (i + 1) fuel
      else 0

/-- Total number of invocations of the wrapped operation performed by one
`fetchWithRetry(fetcher, {retries})` execution. -/
def fetchWithRetryCalls {ε α : Type} (fetcher : Nat → Except ε α)
    (retries : Nat) : Nat :=
  fetchWithRetryCallsLoop fetcher retries 0 retries

/-- `DataFreshness.getConfidence(timestamp)`: bucket the age
`Math.floor((Date.now() - timestamp) / 60000)` in minutes. -/
def DataFreshness.getConfidence (now timestamp : Nat) : Nat :=
  let minutes := (now - timestamp) / 60000
  if minutes < 5 then 100
  else if minutes < 30 then 80
  else if minutes < 60 then 60
  else if minutes < 120 then 40
  else 20

-- ============================
-- Helper lemmas
-- ============================

theorem mapGet_mapSet_self {α : Type} (m : List (String × α)) (k : String)
    (v : α) : mapGet (mapSet m k v) k = some v := by
  simp [mapGet, mapSet, List.find?]

theorem fetchWithRetryLoop_all_fail {ε α : Type} (fetcher : Nat → Except ε α)
    (e : Nat → ε) (retries : Nat) :
    ∀ fuel i, retries - i = fuel → i < retries →
      (∀ j, i ≤ j → j < retries → fetcher j = .error (e j)) →
      fetchWithRetryLoop fetcher retries i fuel
        = some (.failure (e (retries - 1)) retries)
      ∧ fetchWithRetryCallsLoop fetcher retries i fuel = retries - i := by
  intro fuel
  induction fuel with
  | zero => intro i hn hi _; omega
  | succ n ih =>
    intro i hn hi hall
    have hfi : fetcher i = .error (e i) := hall i le_rfl hi
    by_cases hlast : i = retries - 1
    · subst hlast
      constructor
      · simp [fetchWithRetryLoop, hi, hfi]
      · simp [fetchWithRetryCallsLoop, hi, hfi]
        omega
    · have hi1 : i + 1 < retries := by omega
      have hrec := ih (i + 1) (by omega) hi1
        (fun j hj hj2 => hall j (by omega) hj2)
      constructor
      · simp only [fetchWithRetryLoop, hi, if_true, hfi]
        rw [if_neg hlast]
        exact hrec.1
      · simp only [fetchWithRetryCallsLoop, hi, if_true, hfi]
        rw [if_neg hlast, hrec.2]
        omega

theorem fetchWithRetryLoop_first_success {ε α : Type}
    (fetcher : Nat → Except ε α) (retries : Nat) (j : Nat) (v : α)
    (hj : j < retries) (hok : fetcher j = .ok v) :
    ∀ n i fuel, j - i = n → retries - i = fuel → i ≤ j →
      (∀ k, i ≤ k → k < j → ∃ ek, fetcher k = .error ek) →
      fetchWithRetryLoop fetcher retries i fuel = some (.success v (j + 1))
      ∧ fetchWithRetryCallsLoop fetcher retries i fuel = j + 1 - i := by
  intro n
  induction n with
  | zero =>
    intro i fuel hn hfuel hij _
    have hij2 : i = j := by omega
    subst hij2
    have hi : i < retries := hj
    obtain ⟨f, rfl⟩ : ∃ f, fuel = f + 1 := ⟨retries - i - 1, by omega⟩
    constructor
    · simp [fetchWithRetryLoop, hi, hok]
    · simp [fetchWithRetryCallsLoop, hi, hok]
  | succ n ih =>
    intro i fuel hn hfuel hij hall
    have hij2 : i < j := by omega
    obtain ⟨ei, hei⟩ := hall i le_rfl hij2
    have hi : i < retries := by omega
    have hlast : i ≠ retries - 1 := by omega
    obtain ⟨f, rfl⟩ : ∃ f, fuel = f + 1 := ⟨retries - i - 1, by omega⟩
    have hrec := ih (i + 1) f (by omega) (by omega) (by omega)
      (fun k hk hk2 => hall k (by omega) hk2)
    constructor
    · simp only [fetchWithRetryLoop, hi, if_true, hei]
      rw [if_neg hlast]
      exact hrec.1
    · simp only [fetchWithRetryCallsLoop, hi, if_true, hei]
      rw [if_neg hlast, hrec.2]
      omega

theorem fetchWithRetryCallsLoop_le {ε α : Type} (fetcher : Nat → Except ε α)
    (retries : Nat) :
    ∀ fuel i, retries - i = fuel →
      fetchWithRetryCallsLoop fetcher retries i fuel ≤ retries - i := by
  intro fuel
  induction fuel with
  | zero =>
    intro i hn
    simp [fetchWithRetryCallsLoop]
  | succ n ih =>
    intro i hn
    have hi : i < retries := by omega
    simp only [fetchWithRetryCallsLoop, hi, if_true]
    cases hf : fetcher i with
    | ok _ => simp; omega
    | error _ =>
      by_cases hlast : i = retries - 1
      · simp [hlast]
        omega
      · simp only [if_neg hlast]
        have := ih (i + 1) (by omega)
        omega

-- ============================
-- Claims about the retry executor, the cache and the freshness classifier
-- ============================

/-- C4: for every `retries` value `r ≥ 1`, `fetchWithRetry` invokes the
wrapped operation at most `r` times; if some invocation succeeds it returns
`{success: true, data, attempts: i}` with `i` the 1-based index of the first
succeeding invocation and performs no further invocations; if every
invocation fails it invokes the operation exactly `r` times and returns
`{success: false, error, attempts: r}`. -/
theorem fetchWithRetry_contract {ε α : Type} (r : Nat) (hr : 1 ≤ r)
    (fetcher : Nat → Except ε α) :
    fetchWithRetryCalls fetcher r ≤ r
    ∧ (∀ (j : Nat) (v : α), j < r → fetcher j = .ok v →
        (∀ k, k < j → ∃ ek, fetcher k = .error ek) →
        fetchWithRetry fetcher r = some (.success v (j + 1))
        ∧ fetchWithRetryCalls fetcher r = j + 1)
    ∧ (∀ e : Nat → ε, (∀ j, j < r → fetcher j = .error (e j)) →
        fetchWithRetry fetcher r = some (.failure (e (r - 1)) r)
        ∧ fetchWithRetryCalls fetcher r = r) := by
  unfold fetchWithRetry fetchWithRetryCalls
  refine ⟨?_, ?_, ?_⟩
  · have h := fetchWithRetryCallsLoop_le fetcher r r 0 (by omega)
    omega
  · intro j v hj hok hbefore
    have h := fetchWithRetryLoop_first_success fetcher r j v hj hok j 0 r
      (by omega) (by omega) (Nat.zero_le j) (fun k _ hk2 => hbefore k hk2)
    exact ⟨h.1, by have := h.2; omega⟩
  · intro e hall
    have h := fetchWithRetryLoop_all_fail fetcher e r r 0 (by omega)
      (by omega) (fun j _ hj2 => hall j hj2)
    exact ⟨h.1, by have := h.2; omega⟩

/-- Witness for C4: with `retries = 3`, an always-failing operation is
invoked exactly 3 times and the result is `{success: false, attempts: 3}`. -/
theorem fetchWithRetry_contract_witness :
    fetchWithRetry (fun _ => (.error "boom" : Except String Nat)) 3
      = some (.failure "boom" 3)
    ∧ fetchWithRetryCalls (fun _ => (.error "boom" : Except String Nat)) 3
      = 3 :=
  (fetchWithRetry_contract 3 (by decide)
      (fun _ => (.error "boom" : Except String Nat))).2.2
    (fun _ => "boom") (fun _ _ => rfl)

/-- C10: the documented `{success, attempts}` result shape of
`fetchWithRetry` is only total for `retries ≥ 1`: with `retries = 0` the
loop body never executes (the operation is invoked 0 times) and the function
returns JavaScript `undefined` (`none`) rather than a result object. -/
theorem fetchWithRetry_zero_retries_undefined {ε α : Type}
    (fetcher : Nat → Except ε α) :
    fetchWithRetry fetcher 0 = none
    ∧ fetchWithRetryCalls fetcher 0 = 0 :=
  ⟨rfl, rfl⟩

/-- C5: after `set(k, v, t)`, a `get(k)` performed while
`now < set-time + t*60*1000` returns `v` with its age, a `get(k)` performed
once `now ≥ set-time + t*60*1000` is a miss (`null`), and that miss is the
same value a never-set key produces. -/
theorem cacheManager_ttl_correct {α : Type} (cm : CacheManager α)
    (k : String) (v : α) (t now now2 : Nat) :
    (now2 < now + t * 60 * 1000 →
      (cm.set now k v t).get now2 k = some ⟨some v, now2 - now, true⟩)
    ∧ (now + t * 60 * 1000 ≤ now2 → (cm.set now k v t).get now2 k = none)
    ∧ (CacheManager.empty : CacheManager α).get now2 k = none := by
  refine ⟨?_, ?_, ?_⟩
  · intro h
    simp [CacheManager.get, CacheManager.set, mapGet_mapSet_self, h]
  · intro h
    simp [CacheManager.get, CacheManager.set, mapGet_mapSet_self]
    omega
  · simp [CacheManager.get, CacheManager.empty, mapGet]

/-- Witness for C5: `set("a", 42, 1)` at time 0 hits with value 42 at
59999 ms and misses at 60000 ms. -/
theorem cacheManager_ttl_correct_witness :
    ((CacheManager.empty : CacheManager Nat).set 0 "a" 42 1).get 59999 "a"
      = some ⟨some 42, 59999, true⟩
    ∧ ((CacheManager.empty : CacheManager Nat).set 0 "a" 42 1).get 60000 "a"
      = none :=
  ⟨(cacheManager_ttl_correct CacheManager.empty "a" 42 1 0 59999).1
      (by decide),
   (cacheManager_ttl_correct CacheManager.empty "a" 42 1 0 60000).2.1
      (by decide)⟩

/-- C8 counterexample: an entry written at time 0 with a 1-minute TTL is
logically expired at time 61000 (`get` misses), yet
`getCacheStats().totalItems` still counts it: the count is 1 while the
number of live entries is 0 — so the stats count is not a count of live
entries only. -/
theorem cacheStats_counts_expired_counterexample :
    ((CacheManager.empty : CacheManager Nat).set 0 "a" 7 1).get 61000 "a"
      = none
    ∧ ((((CacheManager.empty : CacheManager Nat).set 0 "a" 7 1
        ).getCacheStats 61000).totalItems = 1)
    ∧ (((CacheManager.empty : CacheManager Nat).set 0 "a" 7 1
        ).liveCount 61000 = 0) := by
  refine ⟨by decide, rfl, by decide⟩

/-- C8 amended: `getCacheStats` counts every physically stored entry —
`totalItems` is the size of the underlying store, independent of the query
time, so logically expired entries that were never evicted are included. -/
theorem cacheStats_total_is_store_size {α : Type} (cm : CacheManager α)
    (now now2 : Nat) :
    (cm.getCacheStats now).totalItems = cm.cache.length
    ∧ (cm.getCacheStats now).totalItems = (cm.getCacheStats now2).totalItems :=
  ⟨rfl, rfl⟩

/-- C9: for timestamps `t1 < t2 ≤ now` the freshness confidence is monotone,
`getConfidence(t1) ≤ getConfidence(t2)`, and the classifier only takes the
step values 100, 80, 60, 40, 20. -/
theorem getConfidence_monotone (now t1 t2 : Nat) (h12 : t1 < t2)
    (h2 : t2 ≤ now) :
    DataFreshness.getConfidence now t1 ≤ DataFreshness.getConfidence now t2
    ∧ (∀ t, DataFreshness.getConfidence now t = 100
        ∨ DataFreshness.getConfidence now t = 80
        ∨ DataFreshness.getConfidence now t = 60
        ∨ DataFreshness.getConfidence now t = 40
        ∨ DataFreshness.getConfidence now t = 20) := by
  constructor
  · have hm : (now - t2) / 60000 ≤ (now - t1) / 60000 :=
      Nat.div_le_div_right (by omega)
    simp only [DataFreshness.getConfidence]
    split_ifs <;> omega
  · intro t
    simp only [DataFreshness.getConfidence]
    split_ifs <;> simp

/-- Witness for C9: a 10-minute-old timestamp has confidence 80, a
1-millisecond-old one has 100, and 80 ≤ 100. -/
theorem getConfidence_monotone_witness :
    DataFreshness.getConfidence 600000 0 = 80
    ∧ DataFreshness.getConfidence 600000 599999 = 100
    ∧ DataFreshness.getConfidence 600000 0
        ≤ DataFreshness.getConfidence 600000 599999 :=
  ⟨by decide, by decide,
   (getConfidence_monotone 600000 0 599999 (by decide) (by decide)).1⟩

-- ============================
-- ApiService: source-chain fetchers
-- ============================

/-- The outcome of one upstream HTTP call: a rejected promise / thrown
exception, or a response carrying its `ok` flag and parsed JSON body. -/
inductive HttpOutcome (β : Type) where
  | thrown
  | resp (ok : Bool) (body : β)
deriving DecidableEq, Repr

/-- The `current` block of an Open-Meteo response; `temperature_2m` can be
JSON `null`. -/
structure WeatherCurrent where
  temperature_2m : Option ℚ
deriving DecidableEq, Repr

/-- An Open-Meteo response body as validated by the weather and point
temperature fetchers: only the presence checks `data.current` and
`data.current.temperature_2m !== null` matter; the remaining series are
opaque to the acquisition layer. -/
structure WeatherBody where
  current : Option WeatherCurrent
deriving DecidableEq, Repr

/-- The payload of `fetchWeatherData`:
`{ ...data, source: 'open-meteo', timestamp: Date.now() }`. -/
structure WeatherPayload where
  body : WeatherBody
  source : String
  timestamp : Nat
deriving DecidableEq, Repr

/-- One attempt of the `fetchWeatherData` fetcher closure: strategy 1 is
Open-Meteo, validated by `data.current && data.current.temperature_2m !==
null`; on any failure the closure throws
`'Weather API failed - no real data available'`. -/
def weatherFetcherStep (now : Nat) (resp : HttpOutcome WeatherBody) :
    Except String WeatherPayload :=
  match resp with
  | .thrown => .error "Weather API failed - no real data available"
  | .resp false _ => .error "Weather API failed - no real data available"
  | .resp true data =>
      match data.current with
      | some cur =>
          if cur.temperature_2m.isSome then
            .ok { body := data, source := "open-meteo", timestamp := now }
          else .error "Weather API failed - no real data available"
      | none => .error "Weather API failed - no real data available"

/-- The cache key of `fetchWeatherData`. -/
def weatherCacheKey (lat lng : ℚ) : String :=
  "weather_" ++ toString lat ++ "_" ++ toString lng

/-- `ApiService.fetchWeatherData(lat, lng, useCache)`, with the per-attempt
upstream responses supplied as `responses`.  Returns the payload (optional,
mirroring a raw map read on the cache-hit path) and the updated cache;
throws once the 10-attempt retry budget is exhausted. -/
def fetchWeatherData (cm : CacheManager WeatherPayload) (now : Nat)
    (lat lng : ℚ) (useCache : Bool)
    (responses : Nat → HttpOutcome WeatherBody) :
    Except String (Option WeatherPayload × CacheManager WeatherPayload) :=
  let cacheKey := weatherCacheKey lat lng
  let cached := if useCache then cm.get now cacheKey else none
  match cached with
  | some hit => .ok (hit.data, cm)
  | none =>
      match fetchWithRetry (fun i => weatherFetcherStep now (responses i)) 10 with
      | some (.success d _) => .ok (some d, cm.set now cacheKey d 10)
      | some (.failure _ _) =>
          .error "Weather APIs unavailable - waiting for real data"
      | none => .error "TypeError: result is undefined"

/-- The payload of `fetchCurrentTempAt`: `{ ...data, source: 'open-meteo' }`. -/
structure TempPayload where
  body : WeatherBody
  source : String
deriving DecidableEq, Repr

/-- One attempt of the `fetchCurrentTempAt` fetcher closure: a single
Open-Meteo strategy with the same validation as the weather fetcher, then
`throw new Error('Temperature API failed - no real data available')`. -/
def tempFetcherStep (resp : HttpOutcome WeatherBody) :
    Except String TempPayload :=
  match resp with
  | .thrown => .error "Temperature API failed - no real data available"
  | .resp false _ => .error "Temperature API failed - no real data available"
  | .resp true data =>
      match data.current with
      | some cur =>
          if cur.temperature_2m.isSome then
            .ok { body := data, source := "open-meteo" }
          else .error "Temperature API failed - no real data available"
      | none => .error "Temperature API failed - no real data available"

/-- The cache key of `fetchCurrentTempAt`. -/
def tempCacheKey (lat lng : ℚ) : String :=
  "temp_" ++ toString lat ++ "_" ++ toString lng

/-- `ApiService.fetchCurrentTempAt(lat, lng, useCache)`: retry budget 2; on
success the payload is cached for 5 minutes and returned; on exhaustion the
function executes `return null` — the `.ok (none, cm)` branch — instead of
throwing. -/
def fetchCurrentTempAt (cm : CacheManager TempPayload) (now : Nat)
    (lat lng : ℚ) (useCache : Bool)
    (responses : Nat → HttpOutcome WeatherBody) :
    Except String (Option TempPayload × CacheManager TempPayload) :=
  let cacheKey := tempCacheKey lat lng
  let cached := if useCache then cm.get now cacheKey else none
  match cached with
  | some hit => .ok (hit.data, cm)
  | none =>
      match fetchWithRetry (fun i => tempFetcherStep (responses i)) 2 with
      | some (.success d _) => .ok (some d, cm.set now cacheKey d 5)
      | some (.failure _ _) => .ok (none, cm)
      | none => .error "TypeError: result is undefined"

/-- One `iaqi` reading of a WAQI response: `{ v: number }`. -/
structure WaqiReading where
  v : ℚ
deriving DecidableEq, Repr

/-- The `iaqi` block of a WAQI response, with each pollutant optional. -/
structure WaqiIaqi where
  pm25 : Option WaqiReading
  pm10 : Option WaqiReading
  no2 : Option WaqiReading
  o3 : Option WaqiReading
  so2 : Option WaqiReading
  co : Option WaqiReading
deriving DecidableEq, Repr

/-- The `data` block of a WAQI response; `iaqi` may be absent
(`waqiData.data.iaqi || {}`). -/
structure WaqiData where
  iaqi : Option WaqiIaqi
deriving DecidableEq, Repr

/-- A WAQI response body: `{ status, data }` with `data` possibly absent. -/
structure WaqiBody where
  status : String
  data : Option WaqiData
deriving DecidableEq, Repr

/-- One converted measurement in OpenAQ format:
`{ parameter, value, unit, date: { utc } }`; the `utc` field,
`new Date().toISOString()` in the source, is carried as the millisecond
clock value at conversion time. -/
structure AqMeasurement where
  parameter : String
  value : ℚ
  unit : String
  dateUtc : Nat
deriving DecidableEq, Repr

/-- The payload of `fetchAirQualityWindow`: `{ results, source }`. -/
structure AqPayload where
  results : List AqMeasurement
  source : String
deriving DecidableEq, Repr

/-- Strategy 1 of the air quality chain (WAQI): requires an `ok` response
with `status === 'ok'` and a `data` block; converts each present `iaqi`
pollutant to OpenAQ format; only a non-empty `results` list is a success. -/
def waqiStrategy (now : Nat) (out : HttpOutcome WaqiBody) :
    Option AqPayload :=
  match out with
  | .thrown => none
  | .resp false _ => none
  | .resp true body =>
      if body.status = "ok" then
        match body.data with
        | none => none
        | some d =>
            let iaqi := d.iaqi.getD ⟨none, none, none, none, none, none⟩
            let results :=
              (match iaqi.pm25 with
               | some r => [⟨"pm25", r.v, "µg/m³", now⟩]
               | none => [])
              ++ (match iaqi.pm10 with
               | some r => [⟨"pm10", r.v, "µg/m³", now⟩]
               | none => [])
              ++ (match iaqi.no2 with
               | some r => [⟨"no2", r.v, "µg/m³", now⟩]
               | none => [])
              ++ (match iaqi.o3 with
               | some r => [⟨"o3", r.v, "µg/m³", now⟩]
               | none => [])
              ++ (match iaqi.so2 with
               | some r => [⟨"so2", r.v, "µg/m³", now⟩]
               | none => [])
              ++ (match iaqi.co with
               | some r => [⟨"co", r.v, "mg/m³", now⟩]
               | none => [])
            if results.length > 0 then some ⟨results, "waqi"⟩ else none
      else none

/-- The `components` block of an OpenWeatherMap air pollution item; absent
fields are JavaScript `undefined` and fall back to 0 through `|| 0`. -/
structure OwmComponents where
  pm2_5 : Option ℚ
  pm10 : Option ℚ
  no2 : Option ℚ
  o3 : Option ℚ
  so2 : Option ℚ
  co : Option ℚ
deriving DecidableEq, Repr

/-- One item of `owmData.list`. -/
structure OwmItem where
  components : OwmComponents
deriving DecidableEq, Repr

/-- An OpenWeatherMap air pollution response body. -/
structure OwmBody where
  list : List OwmItem
deriving DecidableEq, Repr

/-- Strategy 2 of the air quality chain (OpenWeatherMap): requires an `ok`
response with a non-empty `list`; converts `list[0].components` with the
`|| 0` defaults, and `co ? co / 1000 : 0` for carbon monoxide. -/
def owmStrategy (now : Nat) (out : HttpOutcome OwmBody) : Option AqPayload :=
  match out with
  | .thrown => none
  | .resp false _ => none
  | .resp true body =>
      match body.list with
      | [] => none
      | item :: _ =>
          let c := item.components
          let results : List AqMeasurement :=
            [⟨"pm25", c.pm2_5.getD 0, "µg/m³", now⟩,
             ⟨"pm10", c.pm10.getD 0, "µg/m³", now⟩,
             ⟨"no2", c.no2.getD 0, "µg/m³", now⟩,
             ⟨"o3", c.o3.getD 0, "µg/m³", now⟩,
             ⟨"so2", c.so2.getD 0, "µg/m³", now⟩,
             ⟨"co",
              (match c.co with
               | some x => if x = 0 then 0 else x / 1000
               | none => 0),
              "mg/m³", now⟩]
          some ⟨results, "openweathermap"⟩

/-- The two upstream responses one attempt of the air quality fetcher
closure may consume. -/
structure AqAttemptEnv where
  waqi : HttpOutcome WaqiBody
  owm : HttpOutcome OwmBody
deriving DecidableEq, Repr

/-- One attempt of the `fetchAirQualityWindow` fetcher closure: try WAQI,
fall through to OpenWeatherMap, then
`throw new Error('All air quality APIs failed - no real data available')`. -/
def aqFetcherStep (now : Nat) (env : AqAttemptEnv) : Except String AqPayload :=
  match waqiStrategy now env.waqi with
  | some p => .ok p
  | none =>
      match owmStrategy now env.owm with
      | some p => .ok p
      | none => .error "All air quality APIs failed - no real data available"

/-- The cache key of `fetchAirQualityWindow`:
`aq_${lat}_${lng}_${date_from}_${date_to}_${parameters.join(',')}`. -/
def aqCacheKey (lat lng : ℚ) (dateFrom dateTo : String)
    (parameters : List String) : String :=
  "aq_" ++ toString lat ++ "_" ++ toString lng ++ "_" ++ dateFrom ++ "_"
    ++ dateTo ++ "_" ++ String.intercalate "," parameters

/-- `ApiService.fetchAirQualityWindow({...})`: cache check, then the
two-strategy chain under a retry budget of 8; a success is cached for 15
minutes; exhaustion throws
`'Air quality APIs unavailable - waiting for real data'`. -/
def fetchAirQualityWindow (cm : CacheManager AqPayload) (now : Nat)
    (lat lng : ℚ) (dateFrom dateTo : String) (parameters : List String)
    (env : Nat → AqAttemptEnv) :
    Except String (Option AqPayload × CacheManager AqPayload) :=
  let cacheKey := aqCacheKey lat lng dateFrom dateTo parameters
  match cm.get now cacheKey with
  | some hit => .ok (hit.data, cm)
  | none =>
      match fetchWithRetry (fun i => aqFetcherStep now (env i)) 8 with
      | some (.success d _) => .ok (some d, cm.set now cacheKey d 15)
      | some (.failure _ _) =>
          .error "Air quality APIs unavailable - waiting for real data"
      | none => .error "TypeError: result is undefined"

/-- The `daily` block of an Open-Meteo climate response; the validation
`data.daily && data.daily.time` only tests field presence, so `time` is
optional while the series lists are opaque payload content. -/
structure ClimateDailyBlock where
  time : Option (List String)
  temperature_2m_max : List ℚ
  temperature_2m_min : List ℚ
  temperature_2m_mean : List ℚ
  precipitation_sum : List ℚ
deriving DecidableEq, Repr

/-- An Open-Meteo climate response body: `{ daily }` with `daily` possibly
absent. -/
structure ClimateBody where
  daily : Option ClimateDailyBlock
deriving DecidableEq, Repr

/-- The payload of the climate fetchers: `{ ...data, source }`. -/
structure ClimatePayload where
  body : ClimateBody
  source : String
deriving DecidableEq, Repr

/-- The shared validation of a climate strategy response:
`res.ok`, then `data.daily && data.daily.time`. -/
def climateValid (out : HttpOutcome ClimateBody) : Option ClimateBody :=
  match out with
  | .thrown => none
  | .resp false _ => none
  | .resp true body =>
      match body.daily with
      | some d => if d.time.isSome then some body else none
      | none => none

/-- The two upstream responses one attempt of the `fetchClimateDaily`
fetcher closure may consume (archive API, then current forecast API). -/
structure ClimateAttemptEnv where
  archive : HttpOutcome ClimateBody
  forecast : HttpOutcome ClimateBody
deriving DecidableEq, Repr

/-- One attempt of the `fetchClimateDaily` fetcher closure: archive strategy,
current-API strategy, then
`throw new Error('Climate API failed - no real data available')`. -/
def climateDailyStep (env : ClimateAttemptEnv) : Except String ClimatePayload :=
  match climateValid env.archive with
  | some body => .ok { body := body, source := "open-meteo-archive" }
  | none =>
      match climateValid env.forecast with
      | some body => .ok { body := body, source := "open-meteo-current" }
      | none => .error "Climate API failed - no real data available"

/-- The cache key of `fetchClimateDaily`. -/
def climateCacheKey (lat lng : ℚ) (start finish daily : String) : String :=
  "climate_" ++ toString lat ++ "_" ++ toString lng ++ "_" ++ start ++ "_"
    ++ finish ++ "_" ++ daily

/-- `ApiService.fetchClimateDaily({...})`: retry budget 8, successful data
cached for 60 minutes, exhaustion throws
`'Climate APIs unavailable - waiting for real data'`. -/
def fetchClimateDaily (cm : CacheManager ClimatePayload) (now : Nat)
    (lat lng : ℚ) (start finish daily : String)
    (env : Nat → ClimateAttemptEnv) :
    Except String (Option ClimatePayload × CacheManager ClimatePayload) :=
  let cacheKey := climateCacheKey lat lng start finish daily
  match cm.get now cacheKey with
  | some hit => .ok (hit.data, cm)
  | none =>
      match fetchWithRetry (fun i => climateDailyStep (env i)) 8 with
      | some (.success d _) => .ok (some d, cm.set now cacheKey d 60)
      | some (.failure _ _) =>
          .error "Climate APIs unavailable - waiting for real data"
      | none => .error "TypeError: result is undefined"

/-- The synthetic yearly climate payload `fetchClimateDataForYear` builds
inside its fetcher when the archive API fails: 365 days, a 12-month base
temperature table indexed by `Math.floor(i / 30) % 12`, a uniform draw for
the daily offset and two further draws for the rare-rain events.  The
`Math.random()` stream is supplied as the three per-day draw functions, and
the ISO date strings (plain `Date` arithmetic in the source) are abstracted
as `year_dayIndex` labels. -/
def generateSyntheticYear (year : Nat)
    (randTemp randRainGate randRainAmt : Nat → ℚ) : ClimatePayload :=
  let baseTemps : List ℚ := [22, 25, 30, 37, 43, 46, 48, 47, 43, 37, 30, 24]
  let days := (List.range 365).map (fun i =>
    let month := i / 30
    let baseTemp := baseTemps.getD (month % 12) 0
    let temp := baseTemp + (randTemp i - 1/2) * 8
    let precip : ℚ :=
      if randRainGate i < 5/100 then randRainAmt i * 15 else 0
    (temp + 5, temp - 5, temp, precip))
  let dailyBlock : ClimateDailyBlock :=
    { time := some ((List.range 365).map
        (fun i => toString year ++ "_" ++ toString i))
      temperature_2m_max := days.map (fun d => d.1)
      temperature_2m_min := days.map (fun d => d.2.1)
      temperature_2m_mean := days.map (fun d => d.2.2.1)
      precipitation_sum := days.map (fun d => d.2.2.2) }
  { body := { daily := some dailyBlock }
    source := "synthetic-riyadh-climate" }

/-- One attempt of the `fetchClimateDataForYear` fetcher closure: the archive
strategy, and on its failure the synthetic generator — this closure never
throws. -/
def climateYearStep (year : Nat)
    (randTemp randRainGate randRainAmt : Nat → ℚ)
    (archive : HttpOutcome ClimateBody) : Except String ClimatePayload :=
  match climateValid archive with
  | some body => .ok { body := body, source := "open-meteo-archive" }
  | none => .ok (generateSyntheticYear year randTemp randRainGate randRainAmt)

/-- The cache key of `fetchClimateDataForYear`. -/
def climateYearCacheKey (lat lng : ℚ) (year : Nat) : String :=
  "climate_year_" ++ toString lat ++ "_" ++ toString lng ++ "_"
    ++ toString year

/-- `ApiService.fetchClimateDataForYear(lat, lng, year)`: retry budget 2,
successful data cached for 24 hours, and a final
`throw new Error('Failed to fetch climate data for year ...')` that is dead
code because the fetcher closure always succeeds. -/
def fetchClimateDataForYear (cm : CacheManager ClimatePayload) (now : Nat)
    (lat lng : ℚ) (year : Nat)
    (responses : Nat → HttpOutcome ClimateBody)
    (randTemp randRainGate randRainAmt : Nat → ℚ) :
    Except String (Option ClimatePayload × CacheManager ClimatePayload) :=
  let cacheKey := climateYearCacheKey lat lng year
  match cm.get now cacheKey with
  | some hit => .ok (hit.data, cm)
  | none =>
      match fetchWithRetry
          (fun i => climateYearStep year randTemp randRainGate randRainAmt
            (responses i)) 2 with
      | some (.success d _) => .ok (some d, cm.set now cacheKey d 1440)
      | some (.failure e _) =>
          .error ("Failed to fetch climate data for year " ++ toString year
            ++ ": " ++ e)
      | none => .error "TypeError: result is undefined"

-- ============================
-- Claims about the acquisition layer (ApiService)
-- ============================

/-- C1 counterexample: with every upstream attempt failing (a cold cache and
all requests rejected), `fetchCurrentTempAt` returns the non-error,
non-payload value `null` (`.ok (none, _)`) instead of raising a failure, and
`fetchClimateDataForYear` returns a generated payload — its source field is
`'synthetic-riyadh-climate'` — fabricated inside the acquisition layer.
This falsifies the claim that every domain fetcher raises a
"no real data available" failure on exhaustion and never returns synthetic
data. -/
theorem acquisition_layer_substitution_counterexample :
    fetchCurrentTempAt CacheManager.empty 0 24 46 true (fun _ => .thrown)
      = .ok (none, CacheManager.empty)
    ∧ (fetchClimateDataForYear CacheManager.empty 0 24 46 2020
        (fun _ => .thrown) (fun _ => 0) (fun _ => 0) (fun _ => 0))
      = .ok (some (generateSyntheticYear 2020
              (fun _ => 0) (fun _ => 0) (fun _ => 0)),
             CacheManager.empty.set 0 (climateYearCacheKey 24 46 2020)
               (generateSyntheticYear 2020
                 (fun _ => 0) (fun _ => 0) (fun _ => 0)) 1440)
    ∧ (generateSyntheticYear 2020
        (fun _ => 0) (fun _ => 0) (fun _ => 0)).source
      = "synthetic-riyadh-climate" :=
  ⟨rfl, rfl, rfl⟩

/-- C1 amended: on total exhaustion (cache miss, every attempt of the
strategy chain failing), `fetchWeatherData`, `fetchAirQualityWindow` and
`fetchClimateDaily` do raise their domain-specific "no real data available"
failure — but `fetchCurrentTempAt` returns `null` (a non-error non-payload
value), and `fetchClimateDataForYear` silently substitutes a synthetic
payload generated inside the acquisition layer (and caches it for 24 hours)
whenever its single API strategy fails. -/
theorem acquisition_exhaustion_amended
    (now : Nat) (lat lng : ℚ) (year : Nat) (dateFrom dateTo : String)
    (parameters : List String) (start finish daily : String)
    (cmW : CacheManager WeatherPayload) (cmT : CacheManager TempPayload)
    (cmA : CacheManager AqPayload) (cmC cmY : CacheManager ClimatePayload)
    (rW rT : Nat → HttpOutcome WeatherBody) (rA : Nat → AqAttemptEnv)
    (rC : Nat → ClimateAttemptEnv) (rY : Nat → HttpOutcome ClimateBody)
    (z1 z2 z3 : Nat → ℚ)
    (hmW : cmW.get now (weatherCacheKey lat lng) = none)
    (hW : ∀ i, weatherFetcherStep now (rW i)
      = .error "Weather API failed - no real data available")
    (hmT : cmT.get now (tempCacheKey lat lng) = none)
    (hT : ∀ i, tempFetcherStep (rT i)
      = .error "Temperature API failed - no real data available")
    (hmA : cmA.get now (aqCacheKey lat lng dateFrom dateTo parameters) = none)
    (hA : ∀ i, aqFetcherStep now (rA i)
      = .error "All air quality APIs failed - no real data available")
    (hmC : cmC.get now (climateCacheKey lat lng start finish daily) = none)
    (hC : ∀ i, climateDailyStep (rC i)
      = .error "Climate API failed - no real data available")
    (hmY : cmY.get now (climateYearCacheKey lat lng year) = none)
    (hY : ∀ i, climateValid (rY i) = none) :
    fetchWeatherData cmW now lat lng true rW
      = .error "Weather APIs unavailable - waiting for real data"
    ∧ fetchAirQualityWindow cmA now lat lng dateFrom dateTo parameters rA
      = .error "Air quality APIs unavailable - waiting for real data"
    ∧ fetchClimateDaily cmC now lat lng start finish daily rC
      = .error "Climate APIs unavailable - waiting for real data"
    ∧ fetchCurrentTempAt cmT now lat lng true rT = .ok (none, cmT)
    ∧ fetchClimateDataForYear cmY now lat lng year rY z1 z2 z3
      = .ok (some (generateSyntheticYear year z1 z2 z3),
             cmY.set now (climateYearCacheKey lat lng year)
               (generateSyntheticYear year z1 z2 z3) 1440) := by
  refine ⟨?_, ?_, ?_, ?_, ?_⟩
  · have h := fetchWithRetryLoop_all_fail
      (fun i => weatherFetcherStep now (rW i))
      (fun _ => "Weather API failed - no real data available") 10 10 0
      (by omega) (by omega) (fun j _ _ => hW j)
    simp [fetchWeatherData, hmW, fetchWithRetry, h.1]
  · have h := fetchWithRetryLoop_all_fail
      (fun i => aqFetcherStep now (rA i))
      (fun _ => "All air quality APIs failed - no real data available") 8 8 0
      (by omega) (by omega) (fun j _ _ => hA j)
    simp [fetchAirQualityWindow, hmA, fetchWithRetry, h.1]
  · have h := fetchWithRetryLoop_all_fail
      (fun i => climateDailyStep (rC i))
      (fun _ => "Climate API failed - no real data available") 8 8 0
      (by omega) (by omega) (fun j _ _ => hC j)
    simp [fetchClimateDaily, hmC, fetchWithRetry, h.1]
  · have h := fetchWithRetryLoop_all_fail
      (fun i => tempFetcherStep (rT i))
      (fun _ => "Temperature API failed - no real data available") 2 2 0
      (by omega) (by omega) (fun j _ _ => hT j)
    simp [fetchCurrentTempAt, hmT, fetchWithRetry, h.1]
  · have hok : (fun i => climateYearStep year z1 z2 z3 (rY i)) 0
        = .ok (generateSyntheticYear year z1 z2 z3) := by
      simp [climateYearStep, hY 0]
    have h := fetchWithRetryLoop_first_success
      (fun i => climateYearStep year z1 z2 z3 (rY i)) 2 0
      (generateSyntheticYear year z1 z2 z3) (by omega) hok 0 0 2
      (by omega) (by omega) (by omega)
      (fun k _ hk2 => absurd hk2 (by omega))
    simp [fetchClimateDataForYear, hmY, fetchWithRetry, h.1]

/-- Witness for C1 amended, at a cold cache with every request rejected. -/
theorem acquisition_exhaustion_amended_witness :
    fetchWeatherData CacheManager.empty 0 24 46 true (fun _ => .thrown)
      = .error "Weather APIs unavailable - waiting for real data"
    ∧ fetchAirQualityWindow CacheManager.empty 0 24 46 "f" "t" ["pm25"]
        (fun _ => ⟨.thrown, .thrown⟩)
      = .error "Air quality APIs unavailable - waiting for real data"
    ∧ fetchClimateDaily CacheManager.empty 0 24 46 "s" "e" "d"
        (fun _ => ⟨.thrown, .thrown⟩)
      = .error "Climate APIs unavailable - waiting for real data"
    ∧ fetchCurrentTempAt CacheManager.empty 0 24 46 true (fun _ => .thrown)
      = .ok (none, CacheManager.empty)
    ∧ fetchClimateDataForYear CacheManager.empty 0 24 46 2020
        (fun _ => .thrown) (fun _ => 0) (fun _ => 0) (fun _ => 0)
      = .ok (some (generateSyntheticYear 2020
              (fun _ => 0) (fun _ => 0) (fun _ => 0)),
             CacheManager.empty.set 0 (climateYearCacheKey 24 46 2020)
               (generateSyntheticYear 2020
                 (fun _ => 0) (fun _ => 0) (fun _ => 0)) 1440) :=
  acquisition_exhaustion_amended 0 24 46 2020 "f" "t" ["pm25"] "s" "e" "d"
    CacheManager.empty CacheManager.empty CacheManager.empty
    CacheManager.empty CacheManager.empty
    (fun _ => .thrown) (fun _ => .thrown) (fun _ => ⟨.thrown, .thrown⟩)
    (fun _ => ⟨.thrown, .thrown⟩) (fun _ => .thrown)
    (fun _ => 0) (fun _ => 0) (fun _ => 0)
    rfl (fun _ => rfl) rfl (fun _ => rfl) rfl (fun _ => rfl)
    rfl (fun _ => rfl) rfl (fun _ => rfl)

/-- C6: on a cache miss the air quality strategies are tried in order; a
strategy that throws or whose HTTP-success payload is structurally invalid
or semantically empty yields `none` and the next strategy is tried; the
payload returned and written to the cache (15-minute TTL) is that of the
first strategy that produced valid data. -/
theorem aq_strategy_fallthrough (now : Nat) (cm : CacheManager AqPayload)
    (lat lng : ℚ) (dateFrom dateTo : String) (parameters : List String)
    (env : Nat → AqAttemptEnv) (p : AqPayload)
    (hmiss : cm.get now (aqCacheKey lat lng dateFrom dateTo parameters)
      = none) :
    (waqiStrategy now (env 0).waqi = some p →
      fetchAirQualityWindow cm now lat lng dateFrom dateTo parameters env
        = .ok (some p,
            cm.set now (aqCacheKey lat lng dateFrom dateTo parameters) p 15))
    ∧ (waqiStrategy now (env 0).waqi = none →
       owmStrategy now (env 0).owm = some p →
      fetchAirQualityWindow cm now lat lng dateFrom dateTo parameters env
        = .ok (some p,
            cm.set now (aqCacheKey lat lng dateFrom dateTo parameters) p 15)) := by
  constructor
  · intro h1
    have hok : (fun i => aqFetcherStep now (env i)) 0 = .ok p := by
      simp [aqFetcherStep, h1]
    have h := fetchWithRetryLoop_first_success
      (fun i => aqFetcherStep now (env i)) 8 0 p (by omega) hok 0 0 8
      (by omega) (by omega) (by omega)
      (fun k _ hk2 => absurd hk2 (by omega))
    simp [fetchAirQualityWindow, hmiss, fetchWithRetry, h.1]
  · intro h1 h2
    have hok : (fun i => aqFetcherStep now (env i)) 0 = .ok p := by
      simp [aqFetcherStep, h1, h2]
    have h := fetchWithRetryLoop_first_success
      (fun i => aqFetcherStep now (env i)) 8 0 p (by omega) hok 0 0 8
      (by omega) (by omega) (by omega)
      (fun k _ hk2 => absurd hk2 (by omega))
    simp [fetchAirQualityWindow, hmiss, fetchWithRetry, h.1]

/-- The payload strategy 2 produces in the C6 witness scenario (the absent
carbon monoxide component falls back to 0). -/
def owmWitnessPayload : AqPayload :=
  { results :=
      [⟨"pm25", 5, "µg/m³", 0⟩, ⟨"pm10", 10, "µg/m³", 0⟩,
       ⟨"no2", 2, "µg/m³", 0⟩, ⟨"o3", 3, "µg/m³", 0⟩,
       ⟨"so2", 1, "µg/m³", 0⟩, ⟨"co", 0, "mg/m³", 0⟩]
    source := "openweathermap" }

/-- Witness for C6: strategy 1 throws, strategy 2 returns valid data; the
fetcher returns strategy 2's converted payload and caches it. -/
theorem aq_strategy_fallthrough_witness :
    fetchAirQualityWindow CacheManager.empty 0 24 46 "f" "t" ["pm25", "pm10"]
        (fun _ => ⟨.thrown,
          .resp true ⟨[⟨⟨some 5, some 10, some 2, some 3, some 1,
            none⟩⟩]⟩⟩)
      = .ok (some owmWitnessPayload,
          CacheManager.empty.set 0 (aqCacheKey 24 46 "f" "t" ["pm25", "pm10"])
            owmWitnessPayload 15) :=
  (aq_strategy_fallthrough 0 CacheManager.empty 24 46 "f" "t" ["pm25", "pm10"]
      (fun _ => ⟨.thrown,
        .resp true ⟨[⟨⟨some 5, some 10, some 2, some 3, some 1,
          none⟩⟩]⟩⟩)
      owmWitnessPayload rfl).2 rfl (by decide)

-- ============================
-- Dashboard State Coordinator (useEnvironmentalData)
-- ============================

/-- One district row of the processed heat-map data; its content is produced
by `DataProcessor.processWeatherForHeatMap` and is opaque to the
coordinator's state handling. -/
structure HeatRow where
  tag : String
deriving DecidableEq, Repr

/-- The result of `DataProcessor.processWeatherForHeatMap()`:
`{ data, timestamp }`. -/
structure HeatResult where
  data : List HeatRow
  timestamp : Nat
deriving DecidableEq, Repr

/-- One row of the processed surface-temperature comparison; opaque to the
coordinator. -/
structure SurfRow where
  tag : String
deriving DecidableEq, Repr

/-- One row of the processed World Bank forest data; opaque to the
coordinator. -/
structure TreeRow where
  tag : String
deriving DecidableEq, Repr

/-- One pollutant row of the processed air quality comparison:
`{ pollutant, before, after, unit, change, trend }`. -/
structure AirQualityRow where
  pollutant : String
  before : ℚ
  after : ℚ
  unit : String
  change : ℚ
  trend : String
deriving DecidableEq, Repr

/-- One NDVI row: the processor-produced content is abstracted into `core`;
the remaining fields are the Riyadh metadata the coordinator spreads onto
every row. -/
structure NdviRow where
  core : String
  city : String
  country : String
  climateZone : String
  afforestationProgram : String
  coordinates : ℚ × ℚ
  dataSource : String
deriving DecidableEq, Repr

/-- The carbon sequestration record held in the dashboard state; optional
fields are absent (`undefined`/`null`) in some of the states the source
writes. -/
structure CarbonPayload where
  currentSequestration : ℚ
  targetSequestration : ℚ
  yearlyGrowthRate : ℚ
  lastMeasurement : Option String
  confidence : String
  dataSources : List String
  methodology : String
  coverage : String
  lastUpdated : Option Nat
deriving DecidableEq, Repr

/-- The claim-relevant slice of the `dashboardData` React state (the
decorative generator-seeded chart fields are out of the acquisition core). -/
structure DashboardData where
  heatMapData : List HeatRow
  airQualityData : List AirQualityRow
  biodiversityData : List NdviRow
  surfaceTempData : List SurfRow
  treeCoverLossData : List TreeRow
  carbonSequestrationData : CarbonPayload
  currentAQI : Int
deriving DecidableEq, Repr

/-- The `loadingStates` React state. -/
structure LoadingStates where
  heatMap : Bool
  airQuality : Bool
  surfaceTemp : Bool
  ndvi : Bool
  treeCoverLoss : Bool
  carbonSequestration : Bool
deriving DecidableEq, Repr

/-- The `dataTimestamps` React state. -/
structure DataTimestamps where
  heatMap : Option Nat
  airQuality : Option Nat
  surfaceTemp : Option Nat
  ndvi : Option Nat
  treeCoverLoss : Option Nat
  carbonSequestration : Option Nat
deriving DecidableEq, Repr

/-- The `apiStatus` React state: one status string per domain. -/
structure ApiStatusMap where
  heatMap : String
  airQuality : String
  ndvi : String
  surfaceTemp : String
  treeCoverLoss : String
  carbonSequestration : String
deriving DecidableEq, Repr

/-- The combined coordinator state of `useEnvironmentalData`. -/
structure DashState where
  dashboardData : DashboardData
  loadingStates : LoadingStates
  dataTimestamps : DataTimestamps
  apiStatus : ApiStatusMap
  lastUpdated : Option Nat
  isLoading : Bool
deriving DecidableEq, Repr

/-- The carbon record the initial `useState` seeds (no `lastMeasurement`
field yet, `lastUpdated: null`). -/
def initialCarbonPayload : CarbonPayload :=
  { currentSequestration := 0
    targetSequestration := 2.5
    yearlyGrowthRate := 0
    lastMeasurement := none
    confidence := "loading"
    dataSources := []
    methodology := "Fetching from Riyadh-specific APIs..."
    coverage := "Riyadh metropolitan area (24.6-24.8°N, 46.5-46.8°E)"
    lastUpdated := none }

/-- The initial coordinator state: empty payload lists, every domain
`loading`, every loading flag set (`currentAQI` is seeded
`32 + Math.floor(Math.random() * 20)`; the zero draw gives 32). -/
def initialDashState : DashState :=
  { dashboardData :=
      { heatMapData := []
        airQualityData := []
        biodiversityData := []
        surfaceTempData := []
        treeCoverLossData := []
        carbonSequestrationData := initialCarbonPayload
        currentAQI := 32 }
    loadingStates := ⟨true, true, true, true, true, true⟩
    dataTimestamps := ⟨none, none, none, none, none, none⟩
    apiStatus := ⟨"loading", "loading", "loading", "loading", "loading",
      "loading"⟩
    lastUpdated := none
    isLoading := true }

/-- `fetchHeatMapData`: loading flag on, then on success store
`result.data`, `result.timestamp` and `success`; on error only the status
flips to `error` (the stored payload is untouched); loading flag off in
`finally`.  Totality of this function models the error being swallowed. -/
def fetchHeatMapData (outcome : Except String HeatResult) (s : DashState) :
    DashState :=
  let s := { s with loadingStates := { s.loadingStates with heatMap := true } }
  let s :=
    match outcome with
    | .ok result =>
        { s with
          dashboardData := { s.dashboardData with heatMapData := result.data }
          dataTimestamps :=
            { s.dataTimestamps with heatMap := some result.timestamp }
          apiStatus := { s.apiStatus with heatMap := "success" } }
    | .error _ =>
        { s with apiStatus := { s.apiStatus with heatMap := "error" } }
  { s with loadingStates := { s.loadingStates with heatMap := false } }

/-- `fetchSurfaceTemp`: the paired weather fetches and the processor are
abstracted into one outcome; any rejection lands in the catch branch, which
only flips the status to `error`. -/
def fetchSurfaceTemp (outcome : Except String (List SurfRow)) (now : Nat)
    (s : DashState) : DashState :=
  let s :=
    { s with loadingStates := { s.loadingStates with surfaceTemp := true } }
  let s :=
    match outcome with
    | .ok surfaceTempData =>
        { s with
          dashboardData :=
            { s.dashboardData with surfaceTempData := surfaceTempData }
          dataTimestamps := { s.dataTimestamps with surfaceTemp := some now }
          apiStatus := { s.apiStatus with surfaceTemp := "success" } }
    | .error _ =>
        { s with apiStatus := { s.apiStatus with surfaceTemp := "error" } }
  { s with loadingStates := { s.loadingStates with surfaceTemp := false } }

/-- The pollutant list `fetchAirQuality` filters on. -/
def aqParameters : List String := ["pm25", "pm10", "no2", "o3", "so2", "co"]

/-- The `currentAQI` computation of `fetchAirQuality`:
`Math.round(sum of the filtered values / Math.max(1, results.length)) || 42`
(`Math.round` is `floor(x + 1/2)`; the `|| 42` default fires on the falsy
rounded value 0). -/
def computeCurrentAQI (aqNow : Option AqPayload) (parameters : List String) :
    Int :=
  let results := (aqNow.map AqPayload.results).getD []
  let vals := (results.filter
    (fun r => parameters.contains r.parameter.toLower)).map
    (fun r => r.value)
  let avg : ℚ := vals.sum / (max 1 results.length : ℚ)
  let rounded : Int := (avg + 1/2).floor
  if rounded = 0 then 42 else rounded

/-- The hardcoded pollutant rows the catch branch of `fetchAirQuality`
substitutes ("Even on error, provide some data"). -/
def fallbackAirQualityRows : List AirQualityRow :=
  [⟨"PM2.5", 18, 14, "µg/m³", -22.2, "improving"⟩,
   ⟨"PM10", 35, 28, "µg/m³", -20.0, "improving"⟩,
   ⟨"NO2", 25, 22, "µg/m³", -12.0, "improving"⟩,
   ⟨"O3", 55, 48, "µg/m³", -12.7, "improving"⟩,
   ⟨"SO2", 12, 10, "µg/m³", -16.7, "improving"⟩,
   ⟨"CO", 0.8, 0.6, "mg/m³", -25.0, "improving"⟩]

/-- `fetchAirQuality`: the two `fetchAirQualityWindow` calls and the
processor are abstracted into one outcome carrying the processed rows and
the raw `aqNow` payload.  On success the rows, the computed `currentAQI`,
the timestamp and `success` are stored.  The catch branch substitutes the
hardcoded fallback rows and AQI 42 and still reports `success` (and writes
no timestamp). -/
def fetchAirQuality
    (outcome : Except String (List AirQualityRow × Option AqPayload))
    (now : Nat) (s : DashState) : DashState :=
  let s :=
    { s with loadingStates := { s.loadingStates with airQuality := true } }
  let s :=
    match outcome with
    | .ok result =>
        { s with
          dashboardData :=
            { s.dashboardData with
              airQualityData := result.1
              currentAQI := computeCurrentAQI result.2 aqParameters }
          dataTimestamps := { s.dataTimestamps with airQuality := some now }
          apiStatus := { s.apiStatus with airQuality := "success" } }
    | .error _ =>
        { s with
          dashboardData :=
            { s.dashboardData with
              airQualityData := fallbackAirQualityRows
              currentAQI := 42 }
          apiStatus := { s.apiStatus with airQuality := "success" } }
  { s with loadingStates := { s.loadingStates with airQuality := false } }

/-- The Riyadh metadata spread onto every NDVI row on the satellite path. -/
def enrichNdviRow (r : NdviRow) : NdviRow :=
  { r with
    city := "Riyadh"
    country := "Saudi Arabia"
    climateZone := "BWh (Hot Desert Climate)"
    afforestationProgram := "Saudi Green Initiative"
    coordinates := (24.7136, 46.6753) }

/-- The metadata spread onto every row of the climate-based NDVI fallback,
which additionally labels the data source as an estimation. -/
def enrichNdviFallbackRow (r : NdviRow) : NdviRow :=
  { r with
    city := "Riyadh"
    country := "Saudi Arabia"
    climateZone := "BWh (Hot Desert Climate)"
    afforestationProgram := "Saudi Green Initiative"
    coordinates := (24.7136, 46.6753)
    dataSource := "Climate-based estimation (satellite data unavailable)" }

/-- The catch branch of `fetchNDVI`: try the climate-based estimation; if it
also fails, flip the status to `error` and blank the stored rows to `[]`. -/
def ndviClimateFallback (fallback : Except String (List NdviRow)) (now : Nat)
    (s : DashState) : DashState :=
  match fallback with
  | .ok rows =>
      { s with
        dashboardData :=
          { s.dashboardData with
            biodiversityData := rows.map enrichNdviFallbackRow }
        dataTimestamps := { s.dataTimestamps with ndvi := some now }
        apiStatus := { s.apiStatus with ndvi := "success" } }
  | .error _ =>
      { s with
        apiStatus := { s.apiStatus with ndvi := "error" }
        dashboardData := { s.dashboardData with biodiversityData := [] } }

/-- `fetchNDVI`: the satellite processing is one outcome; an empty row list
throws (`'No satellite NDVI data available'`) and, like any other satellite
failure, is caught and routed to the climate-based fallback. -/
def fetchNDVI (satellite fallback : Except String (List NdviRow)) (now : Nat)
    (s : DashState) : DashState :=
  let s := { s with loadingStates := { s.loadingStates with ndvi := true } }
  let s :=
    match satellite with
    | .ok rows =>
        if rows.length = 0 then ndviClimateFallback fallback now s
        else
          { s with
            dashboardData :=
              { s.dashboardData with
                biodiversityData := rows.map enrichNdviRow }
            dataTimestamps := { s.dataTimestamps with ndvi := some now }
            apiStatus := { s.apiStatus with ndvi := "success" } }
    | .error _ => ndviClimateFallback fallback now s
  { s with loadingStates := { s.loadingStates with ndvi := false } }

/-- `fetchTreeCoverLoss`: the World Bank fetch, parse and processing are one
outcome.  On success the status is `no-data` for an empty processed list and
`success` otherwise, and the processed rows and timestamp are stored either
way.  The catch branch flips the status to `error` AND blanks the stored
rows to `[]`. -/
def fetchTreeCoverLoss (outcome : Except String (List TreeRow)) (now : Nat)
    (s : DashState) : DashState :=
  let s :=
    { s with loadingStates := { s.loadingStates with treeCoverLoss := true } }
  let s :=
    match outcome with
    | .ok processedData =>
        { s with
          apiStatus :=
            { s.apiStatus with
              treeCoverLoss :=
                if processedData.length = 0 then "no-data" else "success" }
          dashboardData :=
            { s.dashboardData with treeCoverLossData := processedData }
          dataTimestamps :=
            { s.dataTimestamps with treeCoverLoss := some now } }
    | .error _ =>
        { s with
          apiStatus := { s.apiStatus with treeCoverLoss := "error" }
          dashboardData := { s.dashboardData with treeCoverLossData := [] } }
  { s with
    loadingStates := { s.loadingStates with treeCoverLoss := false } }

/-- The carbon record the catch branch of `fetchCarbonSequestration`
writes. -/
def carbonErrorPayload (now : Nat) : CarbonPayload :=
  { currentSequestration := 0
    targetSequestration := 2.5
    yearlyGrowthRate := 0
    lastMeasurement := some "unavailable"
    confidence := "no-data"
    dataSources := ["APIs provide area data only - direct carbon data unavailable"]
    methodology := "Real carbon data only - no estimation allowed"
    coverage := "Riyadh metropolitan area (24.6-24.8°N, 46.5-46.8°E)"
    lastUpdated := some now }

/-- `fetchCarbonSequestration`: the API pipeline that assembles `carbonData`
is one outcome.  On success the status, the record and the timestamp are
stored; the catch branch flips the status to `error` and overwrites the
record with the zeroed `carbonErrorPayload`. -/
def fetchCarbonSequestration (outcome : Except String CarbonPayload)
    (now : Nat) (s : DashState) : DashState :=
  let s :=
    { s with
      loadingStates := { s.loadingStates with carbonSequestration := true } }
  let s :=
    match outcome with
    | .ok carbonData =>
        { s with
          apiStatus := { s.apiStatus with carbonSequestration := "success" }
          dashboardData :=
            { s.dashboardData with carbonSequestrationData := carbonData }
          dataTimestamps :=
            { s.dataTimestamps with carbonSequestration := some now } }
    | .error _ =>
        { s with
          apiStatus := { s.apiStatus with carbonSequestration := "error" }
          dashboardData :=
            { s.dashboardData with
              carbonSequestrationData := carbonErrorPayload now } }
  { s with
    loadingStates := { s.loadingStates with carbonSequestration := false } }

/-- The per-domain outcomes one `fetchRealTimeData` pass consumes. -/
structure FetchEnv where
  heatMap : Except String HeatResult
  surfaceTemp : Except String (List SurfRow)
  airQuality : Except String (List AirQualityRow × Option AqPayload)
  ndviSatellite : Except String (List NdviRow)
  ndviFallback : Except String (List NdviRow)
  treeCoverLoss : Except String (List TreeRow)
  carbon : Except String CarbonPayload
deriving Repr

/-- `fetchRealTimeData`: `Promise.allSettled` over the six domain fetches —
every domain runs to completion regardless of the others' outcomes, and the
join itself never rejects.  The six fetches touch disjoint state fields, so
the single-threaded interleaving is modelled as their sequential
composition; afterwards `lastUpdated` and `isLoading` are set.  (The
force-refresh cache clear acts on the module-level `cacheManager` —
`CacheManager.clear` — not on this React state, and is omitted here.) -/
def fetchRealTimeData (env : FetchEnv) (now : Nat) (s : DashState) :
    DashState :=
  let s := { s with isLoading := true }
  let s := fetchHeatMapData env.heatMap s
  let s := fetchSurfaceTemp env.surfaceTemp now s
  let s := fetchAirQuality env.airQuality now s
  let s := fetchNDVI env.ndviSatellite env.ndviFallback now s
  let s := fetchTreeCoverLoss env.treeCoverLoss now s
  let s := fetchCarbonSequestration env.carbon now s
  { s with lastUpdated := some now, isLoading := false }

-- ============================
-- Claims about the coordinator
-- ============================

/-- C2 counterexample: when `fetchAirQuality`'s whole fetch chain fails (its
catch branch runs), the coordinator reports `apiStatus.airQuality =
'success'` — not `'error'` as the claim requires — while substituting the
hardcoded fallback rows. -/
theorem airQuality_error_branch_counterexample :
    (fetchAirQuality
        (.error "Air quality APIs unavailable - waiting for real data") 0
        initialDashState).apiStatus.airQuality = "success"
    ∧ (fetchAirQuality
        (.error "Air quality APIs unavailable - waiting for real data") 0
        initialDashState).apiStatus.airQuality ≠ "error"
    ∧ (fetchAirQuality
        (.error "Air quality APIs unavailable - waiting for real data") 0
        initialDashState).dashboardData.airQualityData
      = fallbackAirQualityRows :=
  ⟨rfl, by decide, rfl⟩

/-- C2 amended: every per-domain fetch function swallows its error (each is
a total state transformer — no exception escapes), but the status written by
the catch branch is domain-specific: `heatMap`, `surfaceTemp` and
`carbonSequestration` report `error`; `airQuality` substitutes fallback data
and reports `success`; `ndvi` reports `success` when the climate-based
fallback rescues it and `error` only when the fallback fails too;
`treeCoverLoss` reports `error` on an exception but `no-data` on a
successful fetch with an empty processed list. -/
theorem domain_status_on_failure_amended (s : DashState) (now : Nat)
    (e e2 : String) (fb : List NdviRow) (tr : List TreeRow) :
    (fetchHeatMapData (.error e) s).apiStatus.heatMap = "error"
    ∧ (fetchSurfaceTemp (.error e) now s).apiStatus.surfaceTemp = "error"
    ∧ (fetchCarbonSequestration (.error e) now s
        ).apiStatus.carbonSequestration = "error"
    ∧ (fetchAirQuality (.error e) now s).apiStatus.airQuality = "success"
    ∧ (fetchAirQuality (.error e) now s).dashboardData.airQualityData
      = fallbackAirQualityRows
    ∧ (fetchAirQuality (.error e) now s).dashboardData.currentAQI = 42
    ∧ (fetchNDVI (.error e) (.ok fb) now s).apiStatus.ndvi = "success"
    ∧ (fetchNDVI (.error e) (.error e2) now s).apiStatus.ndvi = "error"
    ∧ (fetchTreeCoverLoss (.error e) now s).apiStatus.treeCoverLoss = "error"
    ∧ (fetchTreeCoverLoss (.ok tr) now s).apiStatus.treeCoverLoss
      = (if tr.length = 0 then "no-data" else "success") :=
  ⟨rfl, rfl, rfl, rfl, rfl, rfl, rfl, rfl, rfl, rfl⟩

/-- C3 counterexample: a state whose `treeCoverLossData` was populated by an
earlier successful fetch. -/
def stateWithTreeData : DashState :=
  { initialDashState with
    dashboardData :=
      { initialDashState.dashboardData with
        treeCoverLossData := [⟨"2015"⟩] }
    apiStatus := { initialDashState.apiStatus with treeCoverLoss := "success" } }

/-- C3 counterexample: after a successful fetch populated
`treeCoverLossData`, a failed refresh of the same domain does not leave the
stored payload unchanged — `fetchTreeCoverLoss` blanks it to `[]` while
setting the status to `error`, falsifying the stale-data-retention claim for
the treeCoverLoss domain. -/
theorem treeCoverLoss_blanking_counterexample :
    stateWithTreeData.dashboardData.treeCoverLossData = [⟨"2015"⟩]
    ∧ (fetchTreeCoverLoss (.error "World Bank API error: 500") 0
        stateWithTreeData).apiStatus.treeCoverLoss = "error"
    ∧ (fetchTreeCoverLoss (.error "World Bank API error: 500") 0
        stateWithTreeData).dashboardData.treeCoverLossData = []
    ∧ ([] : List TreeRow) ≠ [⟨"2015"⟩] :=
  ⟨rfl, rfl, rfl, by decide⟩

/-- C3 amended: on a failed refresh the previously stored payload is left in
place only for the `heatMap` and `surfaceTemp` domains; `treeCoverLoss`
blanks its payload to `[]`, `ndvi` blanks it to `[]` when the fallback also
fails, `airQuality` replaces it with the hardcoded fallback rows, and
`carbonSequestration` overwrites it with the zeroed error record. -/
theorem stale_retention_amended (s : DashState) (now : Nat) (e e2 : String) :
    (fetchHeatMapData (.error e) s).dashboardData.heatMapData
      = s.dashboardData.heatMapData
    ∧ (fetchSurfaceTemp (.error e) now s).dashboardData.surfaceTempData
      = s.dashboardData.surfaceTempData
    ∧ (fetchTreeCoverLoss (.error e) now s).dashboardData.treeCoverLossData
      = []
    ∧ (fetchNDVI (.error e) (.error e2) now s).dashboardData.biodiversityData
      = []
    ∧ (fetchAirQuality (.error e) now s).dashboardData.airQualityData
      = fallbackAirQualityRows
    ∧ (fetchCarbonSequestration (.error e) now s
        ).dashboardData.carbonSequestrationData = carbonErrorPayload now :=
  ⟨rfl, rfl, rfl, rfl, rfl, rfl⟩


/-- Effect of `fetchHeatMapData` on the status map. -/
theorem fetchHeatMapData_apiStatus (o : Except String HeatResult)
    (s : DashState) :
    (fetchHeatMapData o s).apiStatus
      = { s.apiStatus with
          heatMap :=
            (match o with
             | .ok _ => "success"
             | .error _ => "error") } := by
  cases o <;> rfl

/-- Effect of `fetchSurfaceTemp` on the status map. -/
theorem fetchSurfaceTemp_apiStatus (o : Except String (List SurfRow))
    (now : Nat) (s : DashState) :
    (fetchSurfaceTemp o now s).apiStatus
      = { s.apiStatus with
          surfaceTemp :=
            (match o with
             | .ok _ => "success"
             | .error _ => "error") } := by
  cases o <;> rfl

/-- Effect of `fetchAirQuality` on the status map: both branches report
`success`. -/
theorem fetchAirQuality_apiStatus
    (o : Except String (List AirQualityRow × Option AqPayload)) (now : Nat)
    (s : DashState) :
    (fetchAirQuality o now s).apiStatus
      = { s.apiStatus with airQuality := "success" } := by
  cases o <;> rfl

/-- Effect of `fetchNDVI` on the status map. -/
theorem fetchNDVI_apiStatus (sat fb : Except String (List NdviRow))
    (now : Nat) (s : DashState) :
    (fetchNDVI sat fb now s).apiStatus
      = { s.apiStatus with
          ndvi :=
            (match sat, fb with
             | .ok rows, fb2 =>
                 if rows.length = 0 then
                   (match fb2 with
                    | .ok _ => "success"
                    | .error _ => "error")
                 else "success"
             | .error _, .ok _ => "success"
             | .error _, .error _ => "error") } := by
  cases sat with
  | ok rows =>
      by_cases h : rows.length = 0 <;>
        cases fb <;> simp [fetchNDVI, ndviClimateFallback, h]
  | error e => cases fb <;> rfl

/-- Effect of `fetchTreeCoverLoss` on the status map. -/
theorem fetchTreeCoverLoss_apiStatus (o : Except String (List TreeRow))
    (now : Nat) (s : DashState) :
    (fetchTreeCoverLoss o now s).apiStatus
      = { s.apiStatus with
          treeCoverLoss :=
            (match o with
             | .ok rows => if rows.length = 0 then "no-data" else "success"
             | .error _ => "error") } := by
  cases o <;> rfl

/-- Effect of `fetchCarbonSequestration` on the status map. -/
theorem fetchCarbonSequestration_apiStatus (o : Except String CarbonPayload)
    (now : Nat) (s : DashState) :
    (fetchCarbonSequestration o now s).apiStatus
      = { s.apiStatus with
          carbonSequestration :=
            (match o with
             | .ok _ => "success"
             | .error _ => "error") } := by
  cases o <;> rfl

/-- The environment of the C7 counterexample: the airQuality chain
permanently fails while every other domain succeeds. -/
def c7FailingAirQualityEnv : FetchEnv :=
  { heatMap := .ok ⟨[⟨"King Fahd District"⟩], 0⟩
    surfaceTemp := .ok [⟨"Al-Malaz (Afforested)"⟩]
    airQuality :=
      .error "Air quality APIs unavailable - waiting for real data"
    ndviSatellite := .ok [⟨"2024", "", "", "", "", (0, 0), ""⟩]
    ndviFallback := .ok []
    treeCoverLoss := .ok [⟨"2015"⟩]
    carbon := .ok initialCarbonPayload }

/-- C7 counterexample: with the airQuality domain permanently failing and
the heatMap domain succeeding, `fetchRealTimeData` does resolve — but the
failing domain ends in `'success'` state, not in the `'error'` state the
claim requires, so the claim that `fetchAll` resolves with every
permanently failing domain in `'error'` state is false. -/
theorem fetchAll_failing_domain_not_error_counterexample :
    (fetchRealTimeData c7FailingAirQualityEnv 0 initialDashState
      ).apiStatus.airQuality = "success"
    ∧ (fetchRealTimeData c7FailingAirQualityEnv 0 initialDashState
      ).apiStatus.airQuality ≠ "error"
    ∧ (fetchRealTimeData c7FailingAirQualityEnv 0 initialDashState
      ).apiStatus.heatMap = "success"
    ∧ (fetchRealTimeData c7FailingAirQualityEnv 0 initialDashState
      ).isLoading = false :=
  ⟨rfl, by decide, rfl, rfl⟩

/-- C7 amended: `fetchRealTimeData` runs all six domain fetches and
completes regardless of individual failures — one domain's failure never
prevents, cancels or fails another domain's fetch or the pass itself, which
always terminates with `isLoading = false` and a fresh `lastUpdated`.  But a
permanently failing domain does not always surface `'error'`: the final
status of every domain is a function of that domain's own outcome alone
(stated for every environment at once), and on failure it is
domain-specific — `heatMap`, `surfaceTemp` and `carbonSequestration` report
`'error'`, `airQuality` always reports `'success'`, `ndvi` reports
`'error'` only when its climate fallback also fails, and `treeCoverLoss`
reports `'error'` on an exception and `'no-data'` on an empty result. -/
theorem fetchAll_isolated_domains (env : FetchEnv) (now : Nat)
    (s : DashState) :
    (fetchRealTimeData env now s).apiStatus.heatMap
      = (match env.heatMap with
         | .ok _ => "success"
         | .error _ => "error")
    ∧ (fetchRealTimeData env now s).apiStatus.surfaceTemp
      = (match env.surfaceTemp with
         | .ok _ => "success"
         | .error _ => "error")
    ∧ (fetchRealTimeData env now s).apiStatus.airQuality = "success"
    ∧ (fetchRealTimeData env now s).apiStatus.ndvi
      = (match env.ndviSatellite, env.ndviFallback with
         | .ok rows, fb =>
             if rows.length = 0 then
               (match fb with
                | .ok _ => "success"
                | .error _ => "error")
             else "success"
         | .error _, .ok _ => "success"
         | .error _, .error _ => "error")
    ∧ (fetchRealTimeData env now s).apiStatus.treeCoverLoss
      = (match env.treeCoverLoss with
         | .ok rows => if rows.length = 0 then "no-data" else "success"
         | .error _ => "error")
    ∧ (fetchRealTimeData env now s).apiStatus.carbonSequestration
      = (match env.carbon with
         | .ok _ => "success"
         | .error _ => "error")
    ∧ (fetchRealTimeData env now s).isLoading = false
    ∧ (fetchRealTimeData env now s).lastUpdated = some now := by
  obtain ⟨hm, st, aq, sat, fb, tcl, cb⟩ := env
  have hA : (fetchRealTimeData ⟨hm, st, aq, sat, fb, tcl, cb⟩ now s).apiStatus
      = { s.apiStatus with
          heatMap :=
            (match hm with
             | .ok _ => "success"
             | .error _ => "error")
          surfaceTemp :=
            (match st with
             | .ok _ => "success"
             | .error _ => "error")
          airQuality := "success"
          ndvi :=
            (match sat, fb with
             | .ok rows, fb2 =>
                 if rows.length = 0 then
                   (match fb2 with
                    | .ok _ => "success"
                    | .error _ => "error")
                 else "success"
             | .error _, .ok _ => "success"
             | .error _, .error _ => "error")
          treeCoverLoss :=
            (match tcl with
             | .ok rows => if rows.length = 0 then "no-data" else "success"
             | .error _ => "error")
          carbonSequestration :=
            (match cb with
             | .ok _ => "success"
             | .error _ => "error") } := by
    show (fetchCarbonSequestration cb now (fetchTreeCoverLoss tcl now
      (fetchNDVI sat fb now (fetchAirQuality aq now (fetchSurfaceTemp st now
        (fetchHeatMapData hm { s with isLoading := true })))))).apiStatus = _
    rw [fetchCarbonSequestration_apiStatus, fetchTreeCoverLoss_apiStatus,
      fetchNDVI_apiStatus, fetchAirQuality_apiStatus,
      fetchSurfaceTemp_apiStatus, fetchHeatMapData_apiStatus]
  refine ⟨?_, ?_, ?_, ?_, ?_, ?_, rfl, rfl⟩ <;> rw [hA]
